import Mathlib

/-!
Verification of the Highlight Locator subsystem of the aigency-gpt frontend.

Strings are modelled as `List Char`.  The JavaScript string operations used by
the source (`trim`, `indexOf`, `substring`, `split(/\s+/)`, `slice`, `join`)
are embedded below; `getSearchableSnippet`, the search / navigation handlers
and the document-change effects are translated from
`src/components/Chat/EnhancedPDFViewer.tsx` (two revisions: the one referred
to as part_002 and the one under src/src).
-/

/-- JavaScript `String.prototype.trim`: drop whitespace from both ends.
(The source only ever meets ASCII whitespace, covered by `Char.isWhitespace`.) -/
def jsTrim (s : List Char) : List Char :=
  ((s.dropWhile Char.isWhitespace).reverse.dropWhile Char.isWhitespace).reverse

/-- JavaScript `String.prototype.indexOf` for a single character:
index of the first occurrence, `-1` when absent. -/
def jsIndexOf (s : List Char) (c : Char) : Int :=
  match s.findIdx? (· = c) with
  | some i => (i : Int)
  | none => -1

/-- Worker for `jsSplitWs`: `acc` is the token being read (reversed), the
`Bool` records whether the previous character belonged to a whitespace run
(so that a run of several whitespace characters counts as one separator). -/
def jsSplitWsGo : List Char → List Char → Bool → List (List Char)
  | [], acc, _ => [acc.reverse]
  | c :: cs, acc, prevWs =>
    if c.isWhitespace then
      if prevWs then jsSplitWsGo cs acc true
      else acc.reverse :: jsSplitWsGo cs [] true
    else
      jsSplitWsGo cs (c :: acc) false

/-- JavaScript `split(/\s+/)`: split on maximal runs of whitespace.  An empty
input yields `[""]`; a leading (trailing) whitespace run yields a leading
(trailing) empty token, exactly as the regex split does. -/
def jsSplitWs (s : List Char) : List (List Char) :=
  jsSplitWsGo s [] false

/-- `getSearchableSnippet` from EnhancedPDFViewer.tsx (identical in both
revisions):

    const trimmedText = text.trim();
    const sentenceEnd = trimmedText.indexOf('.');
    if (sentenceEnd > 10 && sentenceEnd < 100) {
      return trimmedText.substring(0, sentenceEnd + 1);
    }
    return trimmedText.split(/\s+/).slice(0, 10).join(' ');
-/
def getSearchableSnippet (text : List Char) : List Char :=
  let trimmedText := jsTrim text
  let sentenceEnd : Int := jsIndexOf trimmedText '.'
  if 10 < sentenceEnd ∧ sentenceEnd < 100 then
    trimmedText.take (sentenceEnd + 1).toNat
  else
    List.intercalate [' '] ((jsSplitWs trimmedText).take 10)

/-- `bbox` coordinates of a match location (`{ x0, y0, x1, y1 }`). -/
structure BBox where
  x0 : Int
  y0 : Int
  x1 : Int
  y1 : Int
deriving DecidableEq

/-- `PDFLocation` from EnhancedPDFViewer.tsx. -/
structure PDFLocation where
  page_number : Int
  bbox : BBox
  context : List Char
  matched_text : List Char
deriving DecidableEq

/-- The `document` prop fields the effects read
(`id`, `pageNumber?`, `highlightText?`). -/
structure DocInfo where
  id : List Char
  pageNumber : Option Int
  highlightText : Option (List Char)
deriving DecidableEq

/-- The component state touched by the Highlight Locator logic:
`currentPage`, `searchText`, `searchResults`, `currentSearchIndex`,
`isSearching` (React `useState` hooks of EnhancedPDFViewer). -/
structure ViewerState where
  currentPage : Int
  searchText : List Char
  searchResults : List PDFLocation
  currentSearchIndex : Int
  isSearching : Bool
deriving DecidableEq

/-- Body of a `/api/page-navigation` response:
`{ status, locations }`, where `locations` may be absent. -/
structure NavResponse where
  status : List Char
  locations : Option (List PDFLocation)
deriving DecidableEq

/-- User-visible outcome of processing a search response: either locations
were stored (`found`) or the "해당 텍스트를 찾을 수 없습니다" alert fired
(`notFound`). -/
inductive SearchOutcome where
  | found : SearchOutcome
  | notFound : SearchOutcome
deriving DecidableEq

/-- Guard-and-truncation prefix of `handleSearch` (lines 128-132 of
EnhancedPDFViewer.tsx):

    if (!document || !text.trim()) return;
    const searchQuery = text.trim().slice(0, 100);

`none` means the early return fired and no network request is made;
`some q` means a request with query `q` is issued. -/
def handleSearchQuery (text : List Char) : Option (List Char) :=
  if jsTrim text = [] then none
  else some ((jsTrim text).take 100)

/-- Hard-coded document-id substitution in `handleSearch` (lines 143-145):

    const actualDocumentId = document.id === '43bc0171-224a-4d7b-9982-daf480077b70'
      ? 'd5c75f57-7dff-4607-a750-30ec2d690e84'
      : document.id;

The page-navigation request is then issued against `actualDocumentId`. -/
def searchActualDocumentId (docId : List Char) : List Char :=
  if docId = "43bc0171-224a-4d7b-9982-daf480077b70".data then
    "d5c75f57-7dff-4607-a750-30ec2d690e84".data
  else docId

/-- The identical substitution in `handleCreateHighlight` (lines 203-205);
the `/api/highlight` request body carries this id. -/
def highlightActualDocumentId (docId : List Char) : List Char :=
  if docId = "43bc0171-224a-4d7b-9982-daf480077b70".data then
    "d5c75f57-7dff-4607-a750-30ec2d690e84".data
  else docId

/-- Response-processing branch of `handleSearch` (lines 166-175, identical in
part_002 lines 98-106):

    if (data.status === 'success' && data.locations && data.locations.length > 0) {
      setSearchResults(data.locations);
      setCurrentSearchIndex(0);
      setCurrentPage(data.locations[0].page_number);
    } else {
      setSearchResults([]);
      alert('해당 텍스트를 찾을 수 없습니다.');
    }
    ... finally { setIsSearching(false); }

No request identity is checked: the update is applied whenever the response
resolves, whichever search issued it. -/
def applySearchResponse (s : ViewerState) (r : NavResponse) : ViewerState × SearchOutcome :=
  match r.locations with
  | some (l :: ls) =>
    if r.status = "success".data then
      ({ s with searchResults := l :: ls, currentSearchIndex := 0,
                currentPage := l.page_number, isSearching := false },
       SearchOutcome.found)
    else
      ({ s with searchResults := [], isSearching := false }, SearchOutcome.notFound)
  | _ => ({ s with searchResults := [], isSearching := false }, SearchOutcome.notFound)

/-- Process a sequence of search responses in arrival order; each is applied
by `applySearchResponse` unconditionally (there is no sequence-number guard in
the source). -/
def runSearchResponses (s : ViewerState) (rs : List NavResponse) : ViewerState :=
  List.foldl (fun st r => (applySearchResponse st r).1) s rs

/-- `navigateToSearchResult` (lines 245-252, identical in part_002 115-120):

    const navigateToSearchResult = (index: number) => {
      if (searchResults[index]) {
        setCurrentSearchIndex(index);
        setCurrentPage(searchResults[index].page_number);
      }
    };

`searchResults[index]` is truthy exactly when `0 ≤ index < length` (the
elements are objects, never falsy); otherwise the call is a no-op. -/
def navigateToSearchResult (s : ViewerState) (index : Int) : ViewerState :=
  if h : 0 ≤ index ∧ index < (s.searchResults.length : Int) then
    { s with currentSearchIndex := index,
             currentPage := (s.searchResults.get ⟨index.toNat, by omega⟩).page_number }
  else s

/-- Relative navigation as exercised by the UI buttons:
`navigateToSearchResult(currentSearchIndex + delta)` with `delta = ±1`
(lines 388, 397). -/
def navigateByDelta (s : ViewerState) (delta : Int) : ViewerState :=
  navigateToSearchResult s (s.currentSearchIndex + delta)

/-- Document-change `useEffect` of the part_002 revision (lines 61-77):
clears `searchResults` and `searchText`, resets the page, then, when
`highlightText` is present, prefills the box with `getSearchableSnippet` of it
and calls `handleSearch` (the returned `Bool` records that call). -/
def docChangeEffectV2 (s : ViewerState) (doc : DocInfo) : ViewerState × Bool :=
  let page := match doc.pageNumber with
    | some p => p
    | none => 1
  let s1 := { s with searchResults := [], searchText := [], currentPage := page }
  match doc.highlightText with
  | some ht =>
    let snippet := getSearchableSnippet ht
    ({ s1 with searchText := snippet }, true)
  | none => (s1, false)

/-- Document-change `useEffect` of the src/src revision
(EnhancedPDFViewer.tsx lines 69-91): sets the page when `pageNumber` is
present and, when `highlightText` is present, prefills the search box with
`document.highlightText.trim().slice(0, 50)`; the `handleSearch` call is
commented out, so the returned `Bool` (auto-search issued) is always `false`.
Neither `searchResults` nor `currentSearchIndex` is touched. -/
def docChangeEffectSrc (s : ViewerState) (doc : DocInfo) : ViewerState × Bool :=
  let s1 := match doc.pageNumber with
    | some p => { s with currentPage := p }
    | none => s
  match doc.highlightText with
  | some ht => ({ s1 with searchText := (jsTrim ht).take 50 }, false)
  | none => (s1, false)

/-- The locator's index invariant: whenever the stored result list is
non-empty, `currentSearchIndex` addresses one of its elements. -/
def IndexInv (s : ViewerState) : Prop :=
  s.searchResults ≠ [] →
    0 ≤ s.currentSearchIndex ∧ s.currentSearchIndex < (s.searchResults.length : Int)

instance (s : ViewerState) : Decidable (IndexInv s) := by
  unfold IndexInv; infer_instance

/-- The match location of the spec's end-to-end scenario:
page 7, bbox `{x0:10, y0:20, x1:200, y1:40}`. -/
def loc1 : PDFLocation :=
  { page_number := 7, bbox := { x0 := 10, y0 := 20, x1 := 200, y1 := 40 },
    context := "ctx".data, matched_text := "match".data }

/-- A second, distinct match location. -/
def loc2 : PDFLocation :=
  { page_number := 3, bbox := { x0 := 1, y0 := 2, x1 := 3, y1 := 4 },
    context := "other ctx".data, matched_text := "other match".data }

/-- A fresh viewer state (page 1, nothing searched). -/
def s0 : ViewerState :=
  { currentPage := 1, searchText := [], searchResults := [],
    currentSearchIndex := 0, isSearching := false }

/-- A state holding three search results with the cursor on the first. -/
def s3 : ViewerState :=
  { currentPage := 7, searchText := "q".data, searchResults := [loc1, loc2, loc1],
    currentSearchIndex := 0, isSearching := false }

/-- docA's response, carrying `loc2`, resolving after docB's. -/
def respA : NavResponse := { status := "success".data, locations := some [loc2] }

/-- docB's response, carrying `loc1`, resolving first. -/
def respB : NavResponse := { status := "success".data, locations := some [loc1] }

/-- A state still holding a previous document's result with the cursor on it. -/
def sWithResults : ViewerState :=
  { currentPage := 7, searchText := "old query".data, searchResults := [loc1],
    currentSearchIndex := 0, isSearching := false }

/-- The newly viewed document (different identity, no highlight text). -/
def docB : DocInfo := { id := "doc-b".data, pageNumber := some 1, highlightText := none }

/-- An incoming document carrying 60 characters of padded highlight text. -/
def docH : DocInfo :=
  { id := "doc-h".data, pageNumber := none,
    highlightText := some ("  ".data ++ List.replicate 60 'h') }

/-- Witness input: a text whose first period sits at index 11. -/
def wPeriod : List Char := "Hello world. This is long enough".data

/-- Witness input: a short period-free text. -/
def wShort : List Char := "alpha beta".data

/-- Witness input: whitespace-only text. -/
def wBlankOnly : List Char := "   ".data

/-- Witness input: a document id other than the hard-coded one. -/
def wOtherId : List Char := "some-other-doc".data

/- ======================  C1  ====================== -/

/-- `indexOf` returns `-1` when the character is absent. -/
theorem jsIndexOf_eq_neg_one (s : List Char) (c : Char)
    (h : s.findIdx? (· = c) = none) : jsIndexOf s c = -1 := by
  simp [jsIndexOf, h]

/-- `indexOf` returns the index of the first occurrence. -/
theorem jsIndexOf_eq_coe (s : List Char) (c : Char) (p : Nat)
    (h : s.findIdx? (· = c) = some p) : jsIndexOf s c = (p : Int) := by
  simp [jsIndexOf, h]

/-- C1: the claim as stated is false.  It demands the period-prefix whenever
SOME period of the trimmed text sits at a position p with 10 < p < 100, but
the code inspects only the FIRST period (`indexOf('.')`).  In
"a.b cdefghijklmnop. x" the first period is at index 1 (≤ 10) while another
period sits at index 18, so the code takes the token branch and returns the
whole string instead of the 19-character prefix. -/
theorem C1_counterexample :
    ¬ (∀ (text : List Char) (p : Nat),
        (jsTrim text)[p]? = some '.' → 10 < p → p < 100 →
        getSearchableSnippet text = (jsTrim text).take (p + 1)) := by
  intro h
  have hc := h "a.b cdefghijklmnop. x".data 18 (by decide) (by decide) (by decide)
  exact absurd hc (by decide)

/-- C1 (amended): `deriveSnippet` trims whitespace; if the FIRST period of
the trimmed text occurs at a position p with 10 < p < 100 the result is the
trimmed text up to and including that period; otherwise the result is the
first 10 whitespace-run-separated tokens joined by single spaces, and when
there are at most 10 tokens, all of them joined by single spaces. -/
theorem C1_theorem (text : List Char) :
    (∀ p : Nat, (jsTrim text).findIdx? (· = '.') = some p → 10 < p → p < 100 →
        getSearchableSnippet text = (jsTrim text).take (p + 1)) ∧
    ((∀ p : Nat, (jsTrim text).findIdx? (· = '.') = some p → ¬(10 < p ∧ p < 100)) →
        getSearchableSnippet text =
          List.intercalate [' '] ((jsSplitWs (jsTrim text)).take 10)) ∧
    ((∀ p : Nat, (jsTrim text).findIdx? (· = '.') = some p → ¬(10 < p ∧ p < 100)) →
      (jsSplitWs (jsTrim text)).length ≤ 10 →
        getSearchableSnippet text =
          List.intercalate [' '] (jsSplitWs (jsTrim text))) := by
  have hbranch : (∀ p : Nat,
      (jsTrim text).findIdx? (· = '.') = some p → ¬(10 < p ∧ p < 100)) →
      getSearchableSnippet text =
        List.intercalate [' '] ((jsSplitWs (jsTrim text)).take 10) := by
    intro hno
    simp only [getSearchableSnippet]
    cases h : (jsTrim text).findIdx? (· = '.') with
    | none => rw [jsIndexOf_eq_neg_one _ _ h, if_neg (by omega)]
    | some p =>
      have hnc : ¬(10 < (p : Int) ∧ (p : Int) < 100) := by
        intro hc
        exact hno p h ⟨by exact_mod_cast hc.1, by exact_mod_cast hc.2⟩
      rw [jsIndexOf_eq_coe _ _ _ h, if_neg hnc]
  refine ⟨?_, hbranch, ?_⟩
  · intro p hp h10 h100
    have ht : ((p : Int) + 1).toNat = p + 1 := by omega
    simp only [getSearchableSnippet]
    rw [jsIndexOf_eq_coe _ _ _ hp,
      if_pos ⟨by exact_mod_cast h10, by exact_mod_cast h100⟩, ht]
  · intro hno hlen
    rw [hbranch hno, List.take_of_length_le hlen]

/-- C1 witness: a text whose first period is at index 11 (so 10 < 11 < 100)
yields the prefix through that period, and a period-free text yields the
joined tokens. -/
theorem C1_witness :
    getSearchableSnippet wPeriod = (jsTrim wPeriod).take (11 + 1) ∧
    getSearchableSnippet wShort =
      List.intercalate [' '] (jsSplitWs (jsTrim wShort)) :=
  ⟨(C1_theorem wPeriod).1 11 (by decide) (by decide) (by decide),
   (C1_theorem wShort).2.2
    (by
      intro p hp
      rw [show (jsTrim wShort).findIdx? (· = '.') = none from by decide] at hp
      exact Option.noConfusion hp)
    (by decide)⟩

/- ======================  C2  ====================== -/

/-- C2: the claim is false.  In the scenario input the first period is at
index 74 — inside the (10, 100) window, contrary to the spec's "no period
before index 100" — so `deriveSnippet` returns the period-prefix, not the
first 10 tokens. -/
theorem C2_counterexample :
    getSearchableSnippet
        "Government officers with at least 3 months of employment must submit proof...".data ≠
      "Government officers with at least 3 months of employment must".data := by
  decide

/-- C2 (amended): on the scenario input, `deriveSnippet` returns the trimmed
text up to and including the first period. -/
theorem C2_theorem :
    getSearchableSnippet
        "Government officers with at least 3 months of employment must submit proof...".data =
      "Government officers with at least 3 months of employment must submit proof.".data := by
  decide

/- ======================  C3  ====================== -/

/-- C3: the claim is false.  `handleSearch` carries no request sequence
number or any other stale-result guard: every resolved response is applied
unconditionally.  With `search(docA, "x")` then `search(docB, "y")` in
flight and docB's response processed first, the final state holds docA's
locations (`[loc2]`), not docB's (`[loc1]`) as the claim requires. -/
theorem C3_counterexample :
    ¬ ((runSearchResponses s0 [respB, respA]).searchResults = [loc1]) := by
  decide

/-- C3 (amended): there is no stale-result guard; the final state reflects
whichever response is processed last.  For any prior responses `rs` and a
final successful non-empty response `r`, the stored results equal `r`'s
locations. -/
theorem C3_theorem (s : ViewerState) (rs : List NavResponse) (r : NavResponse)
    (l : PDFLocation) (ls : List PDFLocation)
    (hl : r.locations = some (l :: ls)) (hst : r.status = "success".data) :
    (runSearchResponses s (rs ++ [r])).searchResults = l :: ls := by
  unfold runSearchResponses
  rw [List.foldl_append]
  simp [applySearchResponse, hl, hst]

/-- C3 witness: docB's response then docA's stale response leaves docA's
single location in the state. -/
theorem C3_witness :
    (runSearchResponses s0 ([respB] ++ [respA])).searchResults = [loc2] :=
  C3_theorem s0 [respB] respA loc2 [] rfl rfl

/- ======================  C4  ====================== -/

/-- C4: the claim is false.  `navigateToSearchResult` does not clamp: an
out-of-range target index is simply ignored.  From `currentIndex = 0` over
three results, `navigate(+3)` targets index 3, which is out of range, so the
index stays 0 — the clamp the claim requires would give 2. -/
theorem C4_counterexample :
    ¬ ((navigateByDelta s3 3).currentSearchIndex =
        max 0 (min (s3.currentSearchIndex + 3)
          ((s3.searchResults.length : Int) - 1))) := by
  decide

/-- C4 (amended): `navigate(delta)` sets `currentIndex` to
`currentIndex + delta` exactly when that target lies in `[0, N-1]`, and
otherwise leaves the whole state unchanged without error — in particular
with an empty result list it is a no-op rather than failing with
`NoResults`.  For `delta = ±1` from an in-range index this coincides with
clamping to `[0, N-1]`, so `navigate(+1)` at `N-1` and `navigate(-1)` at 0
leave `currentIndex` unchanged. -/
theorem C4_theorem (s : ViewerState) (delta : Int) :
    (0 ≤ s.currentSearchIndex + delta →
      s.currentSearchIndex + delta < (s.searchResults.length : Int) →
      (navigateByDelta s delta).currentSearchIndex = s.currentSearchIndex + delta) ∧
    (¬ (0 ≤ s.currentSearchIndex + delta ∧
        s.currentSearchIndex + delta < (s.searchResults.length : Int)) →
      navigateByDelta s delta = s) ∧
    (IndexInv s → s.searchResults ≠ [] →
      (navigateByDelta s 1).currentSearchIndex =
        min (s.currentSearchIndex + 1) ((s.searchResults.length : Int) - 1) ∧
      (navigateByDelta s (-1)).currentSearchIndex =
        max (s.currentSearchIndex - 1) 0) := by
  have hpos : ∀ d : Int, 0 ≤ s.currentSearchIndex + d →
      s.currentSearchIndex + d < (s.searchResults.length : Int) →
      (navigateByDelta s d).currentSearchIndex = s.currentSearchIndex + d := by
    intro d h0 hN
    simp only [navigateByDelta, navigateToSearchResult]
    rw [dif_pos ⟨h0, hN⟩]
  have hneg : ∀ d : Int, ¬ (0 ≤ s.currentSearchIndex + d ∧
      s.currentSearchIndex + d < (s.searchResults.length : Int)) →
      navigateByDelta s d = s := by
    intro d h
    simp only [navigateByDelta, navigateToSearchResult]
    rw [dif_neg h]
  refine ⟨hpos delta, hneg delta, ?_⟩
  intro hinv hne
  obtain ⟨h0, hN⟩ := hinv hne
  constructor
  · by_cases h : s.currentSearchIndex + 1 < (s.searchResults.length : Int)
    · rw [hpos 1 (by omega) h]
      omega
    · rw [hneg 1 (by omega)]
      omega
  · by_cases h : 0 ≤ s.currentSearchIndex - 1
    · rw [hpos (-1) (by omega) (by omega)]
      omega
    · rw [hneg (-1) (by omega)]
      omega

/-- C4 witness: over three results from index 0, `navigate(+1)` advances to
index 1; `navigate(-5)` is a no-op; `navigate(+1)` matches the clamp. -/
theorem C4_witness :
    (navigateByDelta s3 1).currentSearchIndex = s3.currentSearchIndex + 1 ∧
    navigateByDelta s3 (-5) = s3 ∧
    (navigateByDelta s3 1).currentSearchIndex =
      min (s3.currentSearchIndex + 1) ((s3.searchResults.length : Int) - 1) :=
  ⟨(C4_theorem s3 1).1 (by decide) (by decide),
   (C4_theorem s3 (-5)).2.1 (by decide),
   ((C4_theorem s3 1).2.2 (by decide) (by decide)).1⟩

/- ======================  C5  ====================== -/

/-- C5: a response with zero locations yields the not-found outcome, and a
successful response with N ≥ 1 locations stores exactly those locations in
the supplied order with `currentIndex = 0`. -/
theorem C5_theorem (s : ViewerState) (r : NavResponse) :
    (r.locations = some [] → (applySearchResponse s r).2 = SearchOutcome.notFound) ∧
    (∀ locs, r.locations = some locs → locs ≠ [] → r.status = "success".data →
      (applySearchResponse s r).1.searchResults = locs ∧
      (applySearchResponse s r).1.currentSearchIndex = 0 ∧
      (applySearchResponse s r).2 = SearchOutcome.found) := by
  constructor
  · intro h
    simp [applySearchResponse, h]
  · intro locs hlocs hne hst
    cases locs with
    | nil => exact absurd rfl hne
    | cons l ls => simp [applySearchResponse, hlocs, hst]

/-- C5 witness: a successful single-location response stores `[loc1]` with
index 0, and an empty-locations response reports not-found. -/
theorem C5_witness :
    (applySearchResponse s0 ⟨"success".data, some [loc1]⟩).1.searchResults = [loc1] ∧
    (applySearchResponse s0 ⟨"success".data, some [loc1]⟩).1.currentSearchIndex = 0 ∧
    (applySearchResponse s0 ⟨"success".data, some [loc1]⟩).2 = SearchOutcome.found ∧
    (applySearchResponse s0 ⟨"success".data, some []⟩).2 = SearchOutcome.notFound :=
  ⟨((C5_theorem s0 ⟨"success".data, some [loc1]⟩).2 [loc1] rfl
      (List.cons_ne_nil loc1 []) rfl).1,
   ((C5_theorem s0 ⟨"success".data, some [loc1]⟩).2 [loc1] rfl
      (List.cons_ne_nil loc1 []) rfl).2.1,
   ((C5_theorem s0 ⟨"success".data, some [loc1]⟩).2 [loc1] rfl
      (List.cons_ne_nil loc1 []) rfl).2.2,
   (C5_theorem s0 ⟨"success".data, some []⟩).1 rfl⟩

/- ======================  C6  ====================== -/

/-- C6: whitespace-only text short-circuits (no request); otherwise the
query sent is the trimmed text truncated to 100 characters — non-empty and
of length at most 100, never rejected. -/
theorem C6_theorem (text : List Char) :
    (jsTrim text = [] → handleSearchQuery text = none) ∧
    (jsTrim text ≠ [] →
      handleSearchQuery text = some ((jsTrim text).take 100) ∧
      (jsTrim text).take 100 ≠ [] ∧
      ((jsTrim text).take 100).length ≤ 100) := by
  constructor
  · intro h
    simp [handleSearchQuery, h]
  · intro h
    refine ⟨by simp [handleSearchQuery, h], ?_, ?_⟩
    · simp [List.take_eq_nil_iff, h]
    · rw [List.length_take]
      omega

/-- C6 witness: whitespace-only input issues no request; a 150-character
input is truncated to a non-empty query of exactly 100 characters. -/
theorem C6_witness :
    handleSearchQuery wBlankOnly = none ∧
    (handleSearchQuery (List.replicate 150 'a') =
        some ((jsTrim (List.replicate 150 'a')).take 100) ∧
      (jsTrim (List.replicate 150 'a')).take 100 ≠ [] ∧
      ((jsTrim (List.replicate 150 'a')).take 100).length ≤ 100) :=
  ⟨(C6_theorem wBlankOnly).1 (by decide),
   (C6_theorem (List.replicate 150 'a')).2 (by decide)⟩

/- ======================  C7  ====================== -/

/-- C7: the claim is false for the src/src revision.  Its document-change
effect never touches `searchResults` or `searchText`: after switching to
`docB`, the previous document's result list and query are still present, so
the state does not transition to Idle. -/
theorem C7_counterexample :
    ¬ ((docChangeEffectSrc sWithResults docB).1.searchResults = [] ∧
       (docChangeEffectSrc sWithResults docB).1.searchText = []) := by
  decide

/-- C7 (amended): only the part_002 revision resets on a document change:
its effect always clears the stored result list, and clears the query unless
incoming highlight text immediately replaces it with the derived snippet.
The src/src revision leaves results and query untouched. -/
theorem C7_theorem (s : ViewerState) (doc : DocInfo) :
    (docChangeEffectV2 s doc).1.searchResults = [] ∧
    (doc.highlightText = none → (docChangeEffectV2 s doc).1.searchText = []) := by
  unfold docChangeEffectV2
  cases h : doc.highlightText with
  | none => simp
  | some ht => simp [h]

/-- C7 witness: switching `sWithResults` to `docB` under the part_002 effect
empties both the result list and the query. -/
theorem C7_witness :
    (docChangeEffectV2 sWithResults docB).1.searchResults = [] ∧
    (docChangeEffectV2 sWithResults docB).1.searchText = [] :=
  ⟨(C7_theorem sWithResults docB).1, (C7_theorem sWithResults docB).2 rfl⟩

/- ======================  C8  ====================== -/

/-- C8: both the page-navigation and the highlight request substitute
'd5c75f57-7dff-4607-a750-30ec2d690e84' for the hard-coded id
'43bc0171-224a-4d7b-9982-daf480077b70', and pass every other id through
unchanged. -/
theorem C8_theorem (docId : List Char) :
    (searchActualDocumentId "43bc0171-224a-4d7b-9982-daf480077b70".data =
        "d5c75f57-7dff-4607-a750-30ec2d690e84".data ∧
      highlightActualDocumentId "43bc0171-224a-4d7b-9982-daf480077b70".data =
        "d5c75f57-7dff-4607-a750-30ec2d690e84".data) ∧
    (docId ≠ "43bc0171-224a-4d7b-9982-daf480077b70".data →
      searchActualDocumentId docId = docId ∧
      highlightActualDocumentId docId = docId) := by
  refine ⟨⟨by decide, by decide⟩, ?_⟩
  intro h
  constructor
  · simp [searchActualDocumentId, h]
  · simp [highlightActualDocumentId, h]

/-- C8 witness: an unrelated document id passes through both request paths
unchanged. -/
theorem C8_witness :
    searchActualDocumentId wOtherId = wOtherId ∧
    highlightActualDocumentId wOtherId = wOtherId :=
  (C8_theorem wOtherId).2 (by decide)

/- ======================  C9  ====================== -/

/-- C9: when the loaded document carries highlight text, the src/src effect
prefills the search box with the trimmed text truncated to 50 characters
(length at most 50) and issues no automatic search. -/
theorem C9_theorem (s : ViewerState) (doc : DocInfo) (ht : List Char)
    (hht : doc.highlightText = some ht) :
    (docChangeEffectSrc s doc).1.searchText = (jsTrim ht).take 50 ∧
    ((docChangeEffectSrc s doc).1.searchText).length ≤ 50 ∧
    (docChangeEffectSrc s doc).2 = false := by
  have h1 : (docChangeEffectSrc s doc).1.searchText = (jsTrim ht).take 50 := by
    unfold docChangeEffectSrc
    cases hp : doc.pageNumber <;> simp [hht]
  have h3 : (docChangeEffectSrc s doc).2 = false := by
    unfold docChangeEffectSrc
    cases hp : doc.pageNumber <;> simp [hht]
  refine ⟨h1, ?_, h3⟩
  rw [h1, List.length_take]
  omega

/-- C9 witness: loading `docH` prefills the box with the 50-character
truncation of the trimmed highlight text and issues no search. -/
theorem C9_witness :
    (docChangeEffectSrc s0 docH).1.searchText =
      (jsTrim ("  ".data ++ List.replicate 60 'h')).take 50 ∧
    ((docChangeEffectSrc s0 docH).1.searchText).length ≤ 50 ∧
    (docChangeEffectSrc s0 docH).2 = false :=
  C9_theorem s0 docH ("  ".data ++ List.replicate 60 'h') rfl

/- ======================  C10  ====================== -/

/-- C10: every locator operation preserves the index invariant: if the
result list is non-empty then `currentSearchIndex` lies in
`[0, len(results))`.  A successful search resets the index to 0 over a
non-empty list, a failed search empties the list, and navigation either
assigns an in-range index or leaves the state unchanged. -/
theorem C10_theorem (s : ViewerState) (r : NavResponse) (index : Int)
    (hs : IndexInv s) :
    IndexInv (applySearchResponse s r).1 ∧
    IndexInv (navigateToSearchResult s index) := by
  constructor
  · cases hl : r.locations with
    | none =>
      intro hne
      have h2 : (applySearchResponse s r).1.searchResults = [] := by
        simp [applySearchResponse, hl]
      exact absurd h2 hne
    | some locs =>
      cases locs with
      | nil =>
        intro hne
        have h2 : (applySearchResponse s r).1.searchResults = [] := by
          simp [applySearchResponse, hl]
        exact absurd h2 hne
      | cons l ls =>
        by_cases hst : r.status = "success".data
        · intro _
          have h1 : (applySearchResponse s r).1.currentSearchIndex = 0 := by
            simp [applySearchResponse, hl, hst]
          have h2 : (applySearchResponse s r).1.searchResults = l :: ls := by
            simp [applySearchResponse, hl, hst]
          rw [h1, h2]
          refine ⟨le_refl 0, ?_⟩
          simp only [List.length_cons]
          push_cast
          omega
        · intro hne
          have h2 : (applySearchResponse s r).1.searchResults = [] := by
            simp [applySearchResponse, hl, hst]
          exact absurd h2 hne
  · unfold navigateToSearchResult
    by_cases h : 0 ≤ index ∧ index < (s.searchResults.length : Int)
    · rw [dif_pos h]
      intro _
      exact h
    · rw [dif_neg h]
      exact hs

/-- C10 witness: applying a successful response to `s3` and navigating to
index 2 both leave the invariant intact. -/
theorem C10_witness :
    IndexInv (applySearchResponse s3 ⟨"success".data, some [loc1]⟩).1 ∧
    IndexInv (navigateToSearchResult s3 2) :=
  C10_theorem s3 ⟨"success".data, some [loc1]⟩ 2 (by decide)

